import Mathlib

/-
Verification of the MPT (Merkle-Patricia-Trie) proof circuit encoding.

The development shallowly embeds the witness-assignment helpers and the
polynomial constraint gates of the circuit.  Every gate is modelled as a
record of the advice/fixed cells it queries together with one Lean
definition per registered constraint expression, written exactly as the
source builds the expression; a row assignment is "accepted" by a gate
when every constraint expression evaluates to zero.  Field elements are
kept generic over an arbitrary `Field F` (the source is generic over
`FieldExt`); witnesses instantiate `F := ℚ`.
-/

namespace MptVerify

section AccumulatorEngine

variable {F : Type} [Field F]

/--
Embedding of `MPTConfig::compute_acc_and_mult` (src/mpt/src/mpt.rs:788-800).
The Rust code mutates `acc` and `mult` in place over `for i in 0..len
{ *acc += F::from(row[start + i] as u64) * *mult; *mult *= self.acc_r; }`;
here the updated pair is returned.  `r` is the configuration's folding
randomness `acc_r`.
-/
def compute_acc_and_mult (r : F) (row : List ℕ) (acc mult : F) (start : ℕ) :
    (len : ℕ) → F × F
  | 0 => (acc, mult)
  | len + 1 =>
      compute_acc_and_mult r row (acc + (row.getD start 0 : ℕ) * mult) (mult * r)
        (start + 1) len

/--
Embedding of `bytes_into_rlc` (src/mpt/src/helpers.rs:232-241): folds a byte
message into a single RLC scalar starting from `rlc = 0`, `mult = 1`.
-/
def bytes_into_rlc (message : List ℕ) (r : F) : F :=
  (message.foldl
    (fun (st : F × F) (b : ℕ) => (st.1 + (b : F) * st.2, st.2 * r))
    ((0 : F), (1 : F))).1

lemma compute_acc_and_mult_succ (r : F) (row : List ℕ) (acc mult : F)
    (start len : ℕ) :
    compute_acc_and_mult r row acc mult start (len + 1) =
      compute_acc_and_mult r row (acc + ((row.getD start 0 : ℕ) : F) * mult) (mult * r)
        (start + 1) len := rfl

lemma compute_acc_and_mult_closed_form (r : F) (row : List ℕ) :
    ∀ (len start : ℕ) (acc mult : F),
      compute_acc_and_mult r row acc mult start len =
        (acc + ∑ i ∈ Finset.range len, ((row.getD (start + i) 0 : ℕ) : F) * mult * r ^ i,
          mult * r ^ len) := by
  intro len
  induction len with
  | zero =>
      intro start acc mult
      simp [compute_acc_and_mult]
  | succ n ih =>
      intro start acc mult
      rw [compute_acc_and_mult_succ, ih]
      simp only [Prod.mk.injEq]
      constructor
      · rw [Finset.sum_range_succ']
        simp only [add_zero, pow_zero, mul_one]
        have hsum : (∑ i ∈ Finset.range n, ((row.getD (start + 1 + i) 0 : ℕ) : F) * (mult * r) * r ^ i) =
            ∑ i ∈ Finset.range n, ((row.getD (start + (i + 1)) 0 : ℕ) : F) * mult * r ^ (i + 1) := by
          refine Finset.sum_congr rfl ?_
          intro i _
          have h1 : start + 1 + i = start + (i + 1) := by omega
          rw [h1]
          ring
        rw [hsum]
        ring
      · ring

lemma bytes_into_rlc_aux (r : F) :
    ∀ (message : List ℕ) (acc mult : F),
      (message.foldl
        (fun (st : F × F) (b : ℕ) => (st.1 + (b : F) * st.2, st.2 * r)) (acc, mult)).1 =
        acc + ∑ i ∈ Finset.range message.length, ((message.getD i 0 : ℕ) : F) * mult * r ^ i := by
  intro message
  induction message with
  | nil => intro acc mult; simp
  | cons b t ih =>
      intro acc mult
      simp only [List.foldl_cons, List.length_cons]
      rw [ih]
      rw [Finset.sum_range_succ']
      simp only [List.getD_cons_succ, List.getD_cons_zero, pow_zero, mul_one]
      have hsum : (∑ i ∈ Finset.range t.length, ((t.getD i 0 : ℕ) : F) * (mult * r) * r ^ i) =
          ∑ i ∈ Finset.range t.length, ((t.getD i 0 : ℕ) : F) * mult * r ^ (i + 1) := by
        refine Finset.sum_congr rfl ?_
        intro i _
        ring
      rw [hsum]
      ring

/--
Claim C4: the accumulator fold is a deterministic, order-sensitive pure
function: from the carried pair `(acc, mult)` it returns exactly
`(acc + Σ_{i<len} row[start+i] · mult · r^i, mult · r^len)` and nothing
else, and the digest-RLC helper `bytes_into_rlc` is the very same fold
started at `(0, 1)` over the whole message.
-/
theorem claim_C4 (r : F) (row : List ℕ) (acc mult : F) (start len : ℕ)
    (message : List ℕ) :
    compute_acc_and_mult r row acc mult start len =
      (acc + ∑ i ∈ Finset.range len, ((row.getD (start + i) 0 : ℕ) : F) * mult * r ^ i,
        mult * r ^ len) ∧
    bytes_into_rlc message r =
      (compute_acc_and_mult r message 0 1 0 message.length).1 := by
  constructor
  · exact compute_acc_and_mult_closed_form r row len start acc mult
  · rw [bytes_into_rlc, bytes_into_rlc_aux,
      compute_acc_and_mult_closed_form r message message.length 0 0 1]
    simp

end AccumulatorEngine

section BranchKey

variable {F : Type} [Field F]

/--
Cells queried by the gate "Branch key RLC" of `BranchKeyConfig::configure`
(src/zkevm-circuits/src/mpt_circuit/branch/branch_key.rs:125-463).  The gate
is evaluated with the current row being the first branch child: rotation -1
is the branch init row (holding the six extension selectors and
`sel1`/`sel2` alias `is_branch_c16`/`is_branch_c1`), rotation -19 the
previous first branch child, rotation -20 the previous branch init row, and
rotation -2 the account-leaf-storage-codehash row when entering the first
storage level.
-/
structure BranchKeyCells (F : Type) where
  q_not_first : F
  not_first_level : F
  is_branch_init_prev : F
  modified_node_cur : F
  is_ext_short_c16 : F
  is_ext_short_c1 : F
  is_ext_long_even_c16 : F
  is_ext_long_even_c1 : F
  is_ext_long_odd_c16 : F
  is_ext_long_odd_c1 : F
  is_account_leaf_in_added_branch_prev : F
  sel1_prev : F
  sel1_cur : F
  sel2_cur : F
  key_rlc_prev : F
  key_rlc_cur : F
  key_rlc_mult_prev : F
  key_rlc_mult_cur : F

/-- `is_extension_key_even = is_ext_long_even_c16 + is_ext_long_even_c1`
(branch_key.rs:165). -/
def is_extension_key_even (c : BranchKeyCells F) : F :=
  c.is_ext_long_even_c16 + c.is_ext_long_even_c1

/-- `is_extension_key_odd = is_ext_long_odd_c16 + is_ext_long_odd_c1 +
is_ext_short_c16 + is_ext_short_c1` (branch_key.rs:166-169). -/
def is_extension_key_odd (c : BranchKeyCells F) : F :=
  c.is_ext_long_odd_c16 + c.is_ext_long_odd_c1 + c.is_ext_short_c16 + c.is_ext_short_c1

/-- `is_extension_node = is_extension_key_even + is_extension_key_odd`
(branch_key.rs:171). -/
def is_extension_node (c : BranchKeyCells F) : F :=
  is_extension_key_even c + is_extension_key_odd c

/-- Constraint "Key RLC sel1 not first level" (branch_key.rs:200-212). -/
def keyRlcSel1NotFirstLevel (c : BranchKeyCells F) : F :=
  c.q_not_first * c.not_first_level * c.is_branch_init_prev *
    (1 - c.is_account_leaf_in_added_branch_prev) * (1 - is_extension_node c) *
    c.sel1_cur *
    (c.key_rlc_cur - c.key_rlc_prev - c.modified_node_cur * 16 * c.key_rlc_mult_prev)

/-- Constraint "Key RLC sel2 not first level" (branch_key.rs:218-230). -/
def keyRlcSel2NotFirstLevel (c : BranchKeyCells F) : F :=
  c.q_not_first * c.not_first_level * c.is_branch_init_prev *
    (1 - c.is_account_leaf_in_added_branch_prev) * (1 - is_extension_node c) *
    c.sel2_cur *
    (c.key_rlc_cur - c.key_rlc_prev - c.modified_node_cur * c.key_rlc_mult_prev)

/-- Constraint "Key RLC sel1 not first level mult" (branch_key.rs:237-246). -/
def keyRlcSel1NotFirstLevelMult (c : BranchKeyCells F) : F :=
  c.q_not_first * c.not_first_level * c.is_branch_init_prev *
    (1 - c.is_account_leaf_in_added_branch_prev) * (1 - is_extension_node c) *
    c.sel1_cur * (c.key_rlc_mult_cur - c.key_rlc_mult_prev)

/-- Constraint "Key RLC sel2 not first level mult" (branch_key.rs:253-262);
`acc_r` is the folding randomness. -/
def keyRlcSel2NotFirstLevelMult (c : BranchKeyCells F) (acc_r : F) : F :=
  c.q_not_first * c.not_first_level * c.is_branch_init_prev *
    (1 - c.is_account_leaf_in_added_branch_prev) * (1 - is_extension_node c) *
    c.sel2_cur * (c.key_rlc_mult_cur - c.key_rlc_mult_prev * acc_r)

/-- Constraint "Account address RLC first level" (branch_key.rs:267-274). -/
def accountAddressRlcFirstLevel (c : BranchKeyCells F) : F :=
  c.q_not_first * (1 - c.not_first_level) * (1 - is_extension_node c) *
    c.is_branch_init_prev * (c.key_rlc_cur - c.modified_node_cur * 16)

/-- Constraint "Account address RLC mult first level" (branch_key.rs:279-286). -/
def accountAddressRlcMultFirstLevel (c : BranchKeyCells F) : F :=
  c.q_not_first * (1 - c.not_first_level) * (1 - is_extension_node c) *
    c.is_branch_init_prev * (c.key_rlc_mult_cur - 1)

/-- Constraint "Storage key RLC first level" (branch_key.rs:291-298). -/
def storageKeyRlcFirstLevel (c : BranchKeyCells F) : F :=
  c.q_not_first * c.is_account_leaf_in_added_branch_prev * (1 - is_extension_node c) *
    c.is_branch_init_prev * (c.key_rlc_cur - c.modified_node_cur * 16)

/-- Constraint "Storage key RLC first level mult" (branch_key.rs:303-310). -/
def storageKeyRlcFirstLevelMult (c : BranchKeyCells F) : F :=
  c.q_not_first * c.is_account_leaf_in_added_branch_prev * (1 - is_extension_node c) *
    c.is_branch_init_prev * (c.key_rlc_mult_cur - 1)

/-- Constraint "sel1 is bool" (branch_key.rs:315-321). -/
def sel1IsBool (c : BranchKeyCells F) : F :=
  c.q_not_first * c.is_branch_init_prev * c.sel1_cur * (c.sel1_cur - 1)

/-- Constraint "sel2 is bool" (branch_key.rs:322-328). -/
def sel2IsBool (c : BranchKeyCells F) : F :=
  c.q_not_first * c.is_branch_init_prev * c.sel2_cur * (c.sel2_cur - 1)

/-- Constraint "sel1 + sel2 = 1" (branch_key.rs:329-334). -/
def sel1Sel2SumOne (c : BranchKeyCells F) : F :=
  c.q_not_first * c.is_branch_init_prev * (c.sel1_cur + c.sel2_cur - 1)

/-- Constraint "Account first level sel1 (regular branch)" (branch_key.rs:345-352). -/
def accountFirstLevelSel1RegularBranch (c : BranchKeyCells F) : F :=
  c.q_not_first * (1 - c.not_first_level) * (1 - is_extension_node c) *
    c.is_branch_init_prev * (c.sel1_cur - 1)

/-- Constraint "Account first level sel1 = 1 (extension node even key)"
(branch_key.rs:365-372). -/
def accountFirstLevelSel1ExtEven (c : BranchKeyCells F) : F :=
  c.q_not_first * (1 - c.not_first_level) * c.is_branch_init_prev *
    is_extension_key_even c * (c.sel1_cur - 1)

/-- Constraint "Account first level sel1 = 0 (extension node odd key)"
(branch_key.rs:377-384). -/
def accountFirstLevelSel1ExtOdd (c : BranchKeyCells F) : F :=
  c.q_not_first * (1 - c.not_first_level) * c.is_branch_init_prev *
    is_extension_key_odd c * c.sel1_cur

/-- Constraint "Storage first level sel1 = 1 (regular branch)"
(branch_key.rs:389-396). -/
def storageFirstLevelSel1RegularBranch (c : BranchKeyCells F) : F :=
  c.q_not_first * c.is_account_leaf_in_added_branch_prev * (1 - is_extension_node c) *
    c.is_branch_init_prev * (c.sel1_cur - 1)

/-- Constraint "Storage first level sel1 = 1 (extension node even key)"
(branch_key.rs:401-408). -/
def storageFirstLevelSel1ExtEven (c : BranchKeyCells F) : F :=
  c.q_not_first * c.is_account_leaf_in_added_branch_prev * c.is_branch_init_prev *
    is_extension_key_even c * (c.sel1_cur - 1)

/-- Constraint "Storage first level sel1 = 0 (extension node odd key)"
(branch_key.rs:413-420). -/
def storageFirstLevelSel1ExtOdd (c : BranchKeyCells F) : F :=
  c.q_not_first * c.is_account_leaf_in_added_branch_prev * c.is_branch_init_prev *
    is_extension_key_odd c * c.sel1_cur

/-- Constraint "sel1 0->1->0->..." (branch_key.rs:426-434). -/
def sel1Alternates (c : BranchKeyCells F) : F :=
  c.q_not_first * c.not_first_level * c.is_branch_init_prev *
    (1 - c.is_account_leaf_in_added_branch_prev) * (1 - is_extension_node c) *
    (c.sel1_cur + c.sel1_prev - 1)

/-- Constraint "sel1 0->1->0->... (extension node even key)"
(branch_key.rs:439-447). -/
def sel1AlternatesExtEven (c : BranchKeyCells F) : F :=
  c.q_not_first * c.not_first_level * c.is_branch_init_prev *
    (1 - c.is_account_leaf_in_added_branch_prev) * is_extension_key_even c *
    (c.sel1_cur + c.sel1_prev - 1)

/-- Constraint "sel1 stays the same (extension odd key)"
(branch_key.rs:452-460). -/
def sel1StaysExtOdd (c : BranchKeyCells F) : F :=
  c.q_not_first * c.not_first_level * c.is_branch_init_prev *
    (1 - c.is_account_leaf_in_added_branch_prev) * is_extension_key_odd c *
    (c.sel1_cur - c.sel1_prev)

/-- The gate "Branch key RLC" accepts an assignment when every one of its
constraint expressions evaluates to zero. -/
def branchKeyGate (c : BranchKeyCells F) (acc_r : F) : Prop :=
  keyRlcSel1NotFirstLevel c = 0 ∧
  keyRlcSel2NotFirstLevel c = 0 ∧
  keyRlcSel1NotFirstLevelMult c = 0 ∧
  keyRlcSel2NotFirstLevelMult c acc_r = 0 ∧
  accountAddressRlcFirstLevel c = 0 ∧
  accountAddressRlcMultFirstLevel c = 0 ∧
  storageKeyRlcFirstLevel c = 0 ∧
  storageKeyRlcFirstLevelMult c = 0 ∧
  sel1IsBool c = 0 ∧
  sel2IsBool c = 0 ∧
  sel1Sel2SumOne c = 0 ∧
  accountFirstLevelSel1RegularBranch c = 0 ∧
  accountFirstLevelSel1ExtEven c = 0 ∧
  accountFirstLevelSel1ExtOdd c = 0 ∧
  storageFirstLevelSel1RegularBranch c = 0 ∧
  storageFirstLevelSel1ExtEven c = 0 ∧
  storageFirstLevelSel1ExtOdd c = 0 ∧
  sel1Alternates c = 0 ∧
  sel1AlternatesExtEven c = 0 ∧
  sel1StaysExtOdd c = 0

/--
Claim C1: in every assignment accepted by the "Branch key RLC" gate, at a
branch level (branch-init row above, extension selectors all clear), the
running key RLC is updated with the modified-child nibble weighted by the
current convention: under `sel1 = 1` (c16) the nibble is weighted by 16 and
the multiplier stays; under `sel2 = 1` (c1) it is weighted by 1 and the
multiplier is multiplied by the randomness; and in the first account level
and the first storage level the convention is forced to c16, the key RLC is
`modified_node * 16` and the multiplier is 1.
-/
theorem claim_C1 (c : BranchKeyCells F) (r : F)
    (hg : branchKeyGate c r)
    (hq : c.q_not_first = 1)
    (hinit : c.is_branch_init_prev = 1)
    (hext : is_extension_node c = 0) :
    (c.not_first_level = 1 → c.is_account_leaf_in_added_branch_prev = 0 →
      ((c.sel1_cur = 1 →
          c.key_rlc_cur =
            c.key_rlc_prev + c.modified_node_cur * 16 * c.key_rlc_mult_prev ∧
          c.key_rlc_mult_cur = c.key_rlc_mult_prev) ∧
        (c.sel2_cur = 1 →
          c.key_rlc_cur = c.key_rlc_prev + c.modified_node_cur * c.key_rlc_mult_prev ∧
          c.key_rlc_mult_cur = c.key_rlc_mult_prev * r))) ∧
    (c.not_first_level = 0 →
      c.sel1_cur = 1 ∧ c.key_rlc_cur = c.modified_node_cur * 16 ∧
        c.key_rlc_mult_cur = 1) ∧
    (c.is_account_leaf_in_added_branch_prev = 1 →
      c.sel1_cur = 1 ∧ c.key_rlc_cur = c.modified_node_cur * 16 ∧
        c.key_rlc_mult_cur = 1) := by
  obtain ⟨h1, h2, h3, h4, h5, h6, h7, h8, h9, h10, h11, h12, h13, h14, h15, h16,
    h17, h18, h19, h20⟩ := hg
  refine ⟨?_, ?_, ?_⟩
  · intro hntl hleaf
    constructor
    · intro hsel1
      unfold keyRlcSel1NotFirstLevel at h1
      rw [hq, hntl, hinit, hleaf, hext, hsel1] at h1
      unfold keyRlcSel1NotFirstLevelMult at h3
      rw [hq, hntl, hinit, hleaf, hext, hsel1] at h3
      exact ⟨by linear_combination h1, by linear_combination h3⟩
    · intro hsel2
      unfold keyRlcSel2NotFirstLevel at h2
      rw [hq, hntl, hinit, hleaf, hext, hsel2] at h2
      unfold keyRlcSel2NotFirstLevelMult at h4
      rw [hq, hntl, hinit, hleaf, hext, hsel2] at h4
      exact ⟨by linear_combination h2, by linear_combination h4⟩
  · intro hfirst
    unfold accountFirstLevelSel1RegularBranch at h12
    rw [hq, hfirst, hext, hinit] at h12
    unfold accountAddressRlcFirstLevel at h5
    rw [hq, hfirst, hext, hinit] at h5
    unfold accountAddressRlcMultFirstLevel at h6
    rw [hq, hfirst, hext, hinit] at h6
    exact ⟨by linear_combination h12, by linear_combination h5, by linear_combination h6⟩
  · intro hsto
    unfold storageFirstLevelSel1RegularBranch at h15
    rw [hq, hsto, hext, hinit] at h15
    unfold storageKeyRlcFirstLevel at h7
    rw [hq, hsto, hext, hinit] at h7
    unfold storageKeyRlcFirstLevelMult at h8
    rw [hq, hsto, hext, hinit] at h8
    exact ⟨by linear_combination h15, by linear_combination h7, by linear_combination h8⟩

/--
Concrete accepted assignment for the branch-key gate: an ordinary branch
(no extension selectors), not in the first level, `sel1 = 1`,
`modified_node = 3`, previous key pair `(5, 1)`, current key pair `(53, 1)`;
the folding randomness is 2 (the source's `acc_r`).
-/
def branchKeyCellsExample : BranchKeyCells ℚ where
  q_not_first := 1
  not_first_level := 1
  is_branch_init_prev := 1
  modified_node_cur := 3
  is_ext_short_c16 := 0
  is_ext_short_c1 := 0
  is_ext_long_even_c16 := 0
  is_ext_long_even_c1 := 0
  is_ext_long_odd_c16 := 0
  is_ext_long_odd_c1 := 0
  is_account_leaf_in_added_branch_prev := 0
  sel1_prev := 0
  sel1_cur := 1
  sel2_cur := 0
  key_rlc_prev := 5
  key_rlc_cur := 53
  key_rlc_mult_prev := 1
  key_rlc_mult_cur := 1

lemma branchKeyCellsExample_gate : branchKeyGate branchKeyCellsExample 2 := by
  norm_num [branchKeyGate, keyRlcSel1NotFirstLevel, keyRlcSel2NotFirstLevel,
    keyRlcSel1NotFirstLevelMult, keyRlcSel2NotFirstLevelMult,
    accountAddressRlcFirstLevel, accountAddressRlcMultFirstLevel,
    storageKeyRlcFirstLevel, storageKeyRlcFirstLevelMult, sel1IsBool, sel2IsBool,
    sel1Sel2SumOne, accountFirstLevelSel1RegularBranch, accountFirstLevelSel1ExtEven,
    accountFirstLevelSel1ExtOdd, storageFirstLevelSel1RegularBranch,
    storageFirstLevelSel1ExtEven, storageFirstLevelSel1ExtOdd, sel1Alternates,
    sel1AlternatesExtEven, sel1StaysExtOdd, is_extension_node, is_extension_key_even,
    is_extension_key_odd, branchKeyCellsExample]

theorem claim_C1_witness :
    branchKeyCellsExample.key_rlc_cur =
      branchKeyCellsExample.key_rlc_prev +
        branchKeyCellsExample.modified_node_cur * 16 *
          branchKeyCellsExample.key_rlc_mult_prev :=
  ((((claim_C1 branchKeyCellsExample 2 branchKeyCellsExample_gate rfl rfl
    (by norm_num [is_extension_node, is_extension_key_even, is_extension_key_odd,
      branchKeyCellsExample])).1 rfl rfl).1) rfl).1

/--
Concrete accepted assignment for the branch-key gate at a branch preceded by
an extension node with an even number of segment nibbles
(`is_ext_long_even_c1 = 1`): the gate forces the stored convention selector
to flip (`sel1_prev = 1`, `sel1_cur = 0`), refuting the reading in which an
even segment preserves the convention.
-/
def branchKeyCellsEvenExt : BranchKeyCells ℚ where
  q_not_first := 1
  not_first_level := 1
  is_branch_init_prev := 1
  modified_node_cur := 0
  is_ext_short_c16 := 0
  is_ext_short_c1 := 0
  is_ext_long_even_c16 := 0
  is_ext_long_even_c1 := 1
  is_ext_long_odd_c16 := 0
  is_ext_long_odd_c1 := 0
  is_account_leaf_in_added_branch_prev := 0
  sel1_prev := 1
  sel1_cur := 0
  sel2_cur := 1
  key_rlc_prev := 0
  key_rlc_cur := 0
  key_rlc_mult_prev := 1
  key_rlc_mult_cur := 1

/--
Claim C2 as stated is false on the code: here is an assignment accepted by
the whole "Branch key RLC" gate, in a non-first level with a branch-init row
above, where the branch is preceded by an even-nibble extension segment and
yet the c16/c1 convention selector is NOT preserved across the two
consecutive branch levels (`sel1_cur ≠ sel1_prev`); the gate in fact forces
the flip.
-/
lemma branchKeyCellsEvenExt_gate : branchKeyGate branchKeyCellsEvenExt 2 := by
  norm_num [branchKeyGate, keyRlcSel1NotFirstLevel, keyRlcSel2NotFirstLevel,
    keyRlcSel1NotFirstLevelMult, keyRlcSel2NotFirstLevelMult,
    accountAddressRlcFirstLevel, accountAddressRlcMultFirstLevel,
    storageKeyRlcFirstLevel, storageKeyRlcFirstLevelMult, sel1IsBool, sel2IsBool,
    sel1Sel2SumOne, accountFirstLevelSel1RegularBranch, accountFirstLevelSel1ExtEven,
    accountFirstLevelSel1ExtOdd, storageFirstLevelSel1RegularBranch,
    storageFirstLevelSel1ExtEven, storageFirstLevelSel1ExtOdd, sel1Alternates,
    sel1AlternatesExtEven, sel1StaysExtOdd, is_extension_node, is_extension_key_even,
    is_extension_key_odd, branchKeyCellsEvenExt]

theorem claim_C2_counterexample :
    branchKeyGate branchKeyCellsEvenExt 2 ∧
    branchKeyCellsEvenExt.q_not_first = 1 ∧
    branchKeyCellsEvenExt.not_first_level = 1 ∧
    branchKeyCellsEvenExt.is_branch_init_prev = 1 ∧
    branchKeyCellsEvenExt.is_account_leaf_in_added_branch_prev = 0 ∧
    is_extension_key_even branchKeyCellsEvenExt = 1 ∧
    branchKeyCellsEvenExt.sel1_cur ≠ branchKeyCellsEvenExt.sel1_prev := by
  refine ⟨branchKeyCellsEvenExt_gate, rfl, rfl, rfl, rfl, ?_, ?_⟩
  · norm_num [is_extension_key_even, branchKeyCellsEvenExt]
  · norm_num [branchKeyCellsEvenExt]

/--
Claim C2 (amended): for consecutive branch levels in an accepted assignment,
the stored c16/c1 convention selector flips at every ordinary branch, it
likewise flips when the preceding extension segment has an even nibble
count, and it is preserved when the segment nibble count is odd.
-/
theorem claim_C2 (c : BranchKeyCells F) (r : F)
    (hg : branchKeyGate c r)
    (hq : c.q_not_first = 1)
    (hntl : c.not_first_level = 1)
    (hinit : c.is_branch_init_prev = 1)
    (hleaf : c.is_account_leaf_in_added_branch_prev = 0) :
    (is_extension_node c = 0 → c.sel1_cur + c.sel1_prev = 1) ∧
    (is_extension_key_even c = 1 → c.sel1_cur + c.sel1_prev = 1) ∧
    (is_extension_key_odd c = 1 → c.sel1_cur = c.sel1_prev) := by
  obtain ⟨h1, h2, h3, h4, h5, h6, h7, h8, h9, h10, h11, h12, h13, h14, h15, h16,
    h17, h18, h19, h20⟩ := hg
  refine ⟨?_, ?_, ?_⟩
  · intro hext
    unfold sel1Alternates at h18
    rw [hq, hntl, hinit, hleaf, hext] at h18
    linear_combination h18
  · intro heven
    unfold sel1AlternatesExtEven at h19
    rw [hq, hntl, hinit, hleaf, heven] at h19
    linear_combination h19
  · intro hodd
    unfold sel1StaysExtOdd at h20
    rw [hq, hntl, hinit, hleaf, hodd] at h20
    linear_combination h20

theorem claim_C2_witness :
    branchKeyCellsEvenExt.sel1_cur + branchKeyCellsEvenExt.sel1_prev = 1 :=
  (claim_C2 branchKeyCellsEvenExt 2 branchKeyCellsEvenExt_gate
    rfl rfl rfl rfl).2.1
    (by norm_num [is_extension_key_even, branchKeyCellsEvenExt])

end BranchKey

section ExtensionNibbles

variable {F : Type} [Field F]

/--
Cells queried by the gate "Extension node number of nibbles" of
`ExtensionNodeConfig::configure` (src/mpt/src/branch/extension_node.rs:
1133-1294).  The six extension selectors, the longer-than-55 selector and
the nibble counter live in the branch init row (`rot_into_branch_init`);
`nibbles_count_prev` is the counter of the previous branch init row
(`rot_into_branch_init - BRANCH_ROWS_NUM`); `s_rlp2` and `s_bytes0` are from
the current extension S row.
-/
structure ExtNibbleCells (F : Type) where
  q_not_first : F
  q_enable : F
  not_first_level : F
  is_first_storage_level : F
  is_ext_longer_than_55 : F
  is_ext_short_c16 : F
  is_ext_short_c1 : F
  is_ext_long_even_c16 : F
  is_ext_long_even_c1 : F
  is_ext_long_odd_c16 : F
  is_ext_long_odd_c1 : F
  nibbles_count_cur : F
  nibbles_count_prev : F
  s_rlp2 : F
  s_bytes0 : F

/-- `get_is_extension_node_one_nibble` (src/mpt/src/helpers.rs:215-230):
sum of the two short-extension selectors. -/
def get_is_extension_node_one_nibble (c : ExtNibbleCells F) : F :=
  c.is_ext_short_c16 + c.is_ext_short_c1

/-- `get_is_extension_node_even_nibbles`: sum of the two long-even
selectors, as the inline `is_even_nibbles` of
src/mpt/src/extension_node.rs:312. -/
def get_is_extension_node_even_nibbles (c : ExtNibbleCells F) : F :=
  c.is_ext_long_even_c16 + c.is_ext_long_even_c1

/-- `get_is_extension_node_long_odd_nibbles`: sum of the two long-odd
selectors, as the inline `is_long_odd_nibbles` of
src/mpt/src/extension_node.rs:313. -/
def get_is_extension_node_long_odd_nibbles (c : ExtNibbleCells F) : F :=
  c.is_ext_long_odd_c16 + c.is_ext_long_odd_c1

/--
The previous nibble counter after the two rewrites of extension_node.rs:
1179-1181: it is zeroed out whenever we are in the first storage level or in
the first level of the proof.
-/
def nibbles_count_prev_eff (c : ExtNibbleCells F) : F :=
  c.not_first_level * ((1 - c.is_first_storage_level) * c.nibbles_count_prev)

/-- Constraint "Nibbles number when one nibble"
(extension_node.rs:1187-1196). -/
def nibblesNumberOneNibble (c : ExtNibbleCells F) : F :=
  c.q_not_first * c.q_enable * get_is_extension_node_one_nibble c *
    (c.nibbles_count_cur - nibbles_count_prev_eff c - 1 - 1)

/-- Constraint "Nibbles number when even number of nibbles & ext not longer
than 55" (extension_node.rs:1211-1221), with
`num_nibbles = (s_rlp2 - 128 - 1) * 2`. -/
def nibblesNumberEvenNotLonger55 (c : ExtNibbleCells F) : F :=
  c.q_not_first * c.q_enable * get_is_extension_node_even_nibbles c *
    (1 - c.is_ext_longer_than_55) *
    (c.nibbles_count_cur - nibbles_count_prev_eff c -
      (c.s_rlp2 - 128 - 1) * (1 + 1) - 1)

/-- Constraint "Nibbles num when odd number (>1) of nibbles & ext not longer
than 55" (extension_node.rs:1232-1242), with
`num_nibbles = (s_rlp2 - 128) * 2 - 1`. -/
def nibblesNumberOddNotLonger55 (c : ExtNibbleCells F) : F :=
  c.q_not_first * c.q_enable * get_is_extension_node_long_odd_nibbles c *
    (1 - c.is_ext_longer_than_55) *
    (c.nibbles_count_cur - nibbles_count_prev_eff c -
      ((c.s_rlp2 - 128) * (1 + 1) - 1) - 1)

/-- Constraint "Nibbles num when even number of nibbles & ext longer than
55" (extension_node.rs:1257-1267), with
`num_nibbles = (s_bytes0 - 128 - 1) * 2`. -/
def nibblesNumberEvenLonger55 (c : ExtNibbleCells F) : F :=
  c.q_not_first * c.q_enable * get_is_extension_node_even_nibbles c *
    c.is_ext_longer_than_55 *
    (c.nibbles_count_cur - nibbles_count_prev_eff c -
      (c.s_bytes0 - 128 - 1) * (1 + 1) - 1)

/-- Constraint "Nibbles num when odd number (>1) of nibbles & ext longer
than 55" (extension_node.rs:1283-1290), with
`num_nibbles = (s_bytes0 - 128) * 2 - 1`. -/
def nibblesNumberOddLonger55 (c : ExtNibbleCells F) : F :=
  c.q_not_first * c.q_enable * get_is_extension_node_long_odd_nibbles c *
    c.is_ext_longer_than_55 *
    (c.nibbles_count_cur - nibbles_count_prev_eff c -
      ((c.s_bytes0 - 128) * (1 + 1) - 1) - 1)

/-- The gate "Extension node number of nibbles" accepts an assignment when
all five constraint expressions are zero. -/
def extNibbleGate (c : ExtNibbleCells F) : Prop :=
  nibblesNumberOneNibble c = 0 ∧
  nibblesNumberEvenNotLonger55 c = 0 ∧
  nibblesNumberOddNotLonger55 c = 0 ∧
  nibblesNumberEvenLonger55 c = 0 ∧
  nibblesNumberOddLonger55 c = 0

/-- Exactly one of the three extension shape sums (one-nibble, long-even,
long-odd) is 1 and the other two are 0. -/
def extOneShape (c : ExtNibbleCells F) : Prop :=
  (get_is_extension_node_one_nibble c = 1 ∧
    get_is_extension_node_even_nibbles c = 0 ∧
    get_is_extension_node_long_odd_nibbles c = 0) ∨
  (get_is_extension_node_one_nibble c = 0 ∧
    get_is_extension_node_even_nibbles c = 1 ∧
    get_is_extension_node_long_odd_nibbles c = 0) ∨
  (get_is_extension_node_one_nibble c = 0 ∧
    get_is_extension_node_even_nibbles c = 0 ∧
    get_is_extension_node_long_odd_nibbles c = 1)

/-- A level of the proof path on which the nibble-count gate is active and
meaningful: the gate accepts it, the fixed selectors are on, the
longer-than-55 selector is boolean and exactly one shape class is chosen. -/
def goodNibbleLevel (c : ExtNibbleCells F) : Prop :=
  extNibbleGate c ∧ c.q_not_first = 1 ∧ c.q_enable = 1 ∧
    (c.is_ext_longer_than_55 = 0 ∨ c.is_ext_longer_than_55 = 1) ∧ extOneShape c

/-- The nibble-count increment of one extension-plus-branch level, per shape
class: 2 for a one-nibble extension; segment nibbles plus 1 (the branch's
own modified-child nibble) otherwise, with the segment nibble count read
from `s_rlp2` (or `s_bytes0` when longer than 55 bytes). -/
def nibblesDelta (c : ExtNibbleCells F) : F :=
  get_is_extension_node_one_nibble c * 2 +
  get_is_extension_node_even_nibbles c *
    ((1 - c.is_ext_longer_than_55) * ((c.s_rlp2 - 128 - 1) * 2 + 1) +
      c.is_ext_longer_than_55 * ((c.s_bytes0 - 128 - 1) * 2 + 1)) +
  get_is_extension_node_long_odd_nibbles c *
    ((1 - c.is_ext_longer_than_55) * ((c.s_rlp2 - 128) * 2 - 1 + 1) +
      c.is_ext_longer_than_55 * ((c.s_bytes0 - 128) * 2 - 1 + 1))

lemma nibble_level_delta (c : ExtNibbleCells F) (hc : goodNibbleLevel c) :
    c.nibbles_count_cur = nibbles_count_prev_eff c + nibblesDelta c := by
  obtain ⟨⟨h1, h2, h3, h4, h5⟩, hq, he, h55, hshape⟩ := hc
  unfold nibblesNumberOneNibble at h1
  unfold nibblesNumberEvenNotLonger55 at h2
  unfold nibblesNumberOddNotLonger55 at h3
  unfold nibblesNumberEvenLonger55 at h4
  unfold nibblesNumberOddLonger55 at h5
  unfold nibblesDelta
  rcases hshape with ⟨ha, hb, hcod⟩ | ⟨ha, hb, hcod⟩ | ⟨ha, hb, hcod⟩
  · rw [hq, he, ha] at h1
    rw [ha, hb, hcod]
    linear_combination h1
  · rcases h55 with h55 | h55
    · rw [hq, he, hb, h55] at h2
      rw [ha, hb, hcod, h55]
      linear_combination h2
    · rw [hq, he, hb, h55] at h4
      rw [ha, hb, hcod, h55]
      linear_combination h4
  · rcases h55 with h55 | h55
    · rw [hq, he, hcod, h55] at h3
      rw [ha, hb, hcod, h55]
      linear_combination h3
    · rw [hq, he, hcod, h55] at h5
      rw [ha, hb, hcod, h55]
      linear_combination h5

/-- The raw previous counters along a path agree with the preceding level's
counter. -/
def chainedFrom : F → List (ExtNibbleCells F) → Prop
  | _, [] => True
  | p, c :: rest => c.nibbles_count_prev = p ∧ chainedFrom c.nibbles_count_cur rest

/-- The counter stored in the last branch init row of the path. -/
def finalCount : F → List (ExtNibbleCells F) → F
  | p, [] => p
  | _, c :: rest => finalCount c.nibbles_count_cur rest

/-- Total of the per-level nibble increments. -/
def sumDeltas (l : List (ExtNibbleCells F)) : F :=
  (l.map nibblesDelta).sum

/--
Modelled from the spec: the terminal constraint that, once in a leaf, the
remaining leaf-resident nibbles added to the accumulated counter must give
exactly 64.  The constraint itself lives in the leaf components
(`leaf_key.rs` / `account_leaf_key.rs`), which are not under src/ in this
repository snapshot; the spec states "The nibble counter, after folding
every branch, extension, and leaf-resident nibble along one path, equals
exactly 64".
-/
def leafNibblesCheck (nibbles_count leaf_nibbles : F) : Prop :=
  nibbles_count + leaf_nibbles = 64

lemma chained_final_count :
    ∀ (l : List (ExtNibbleCells F)) (p : F),
      (∀ c ∈ l, goodNibbleLevel c ∧ c.not_first_level = 1 ∧
        c.is_first_storage_level = 0) →
      chainedFrom p l →
      finalCount p l = p + sumDeltas l := by
  intro l
  induction l with
  | nil => intro p _ _; simp [finalCount, sumDeltas]
  | cons c rest ih =>
      intro p hgood hchain
      obtain ⟨hprev, hchain'⟩ := hchain
      obtain ⟨hc, hntl, hfsl⟩ := hgood c (List.mem_cons_self c rest)
      have hcur : c.nibbles_count_cur = p + nibblesDelta c := by
        have hd := nibble_level_delta c hc
        rw [hd]
        unfold nibbles_count_prev_eff
        rw [hntl, hfsl, hprev]
        ring
      have hrest : ∀ x ∈ rest, goodNibbleLevel x ∧ x.not_first_level = 1 ∧
          x.is_first_storage_level = 0 := by
        intro x hx
        exact hgood x (List.mem_cons_of_mem c hx)
      show finalCount c.nibbles_count_cur rest = p + sumDeltas (c :: rest)
      rw [ih c.nibbles_count_cur hrest hchain', hcur]
      simp [sumDeltas]
      ring

/--
Claim C3: along an accepted path of extension-plus-branch levels, each
branch-init nibble counter grows by exactly the extension segment's nibble
count plus 1: by 2 for a one-nibble extension, by `(s_rlp2 - 128 - 1) * 2 +
1` for an even segment not longer than 55 bytes, by `(s_rlp2 - 128) * 2 - 1
+ 1` for a longer odd segment, with `s_bytes0` replacing `s_rlp2` in the
longer-than-55 forms; the counter effectively starts at 0 in the first
account level and in the first storage level, and with the (spec-modelled)
terminal leaf check the folded total is exactly 64.
-/
theorem claim_C3 (h : ExtNibbleCells F) (rest : List (ExtNibbleCells F))
    (leaf_nibbles : F)
    (hh : goodNibbleLevel h)
    (hfirst : h.not_first_level = 0 ∨ h.is_first_storage_level = 1)
    (hrest : ∀ c ∈ rest, goodNibbleLevel c ∧ c.not_first_level = 1 ∧
      c.is_first_storage_level = 0)
    (hchain : chainedFrom h.nibbles_count_cur rest)
    (hterm : leafNibblesCheck (finalCount h.nibbles_count_cur rest) leaf_nibbles) :
    (∀ c ∈ h :: rest,
      c.nibbles_count_cur = nibbles_count_prev_eff c + nibblesDelta c) ∧
    nibbles_count_prev_eff h = 0 ∧
    finalCount h.nibbles_count_cur rest = sumDeltas (h :: rest) ∧
    sumDeltas (h :: rest) + leaf_nibbles = 64 := by
  have hpe : nibbles_count_prev_eff h = 0 := by
    unfold nibbles_count_prev_eff
    rcases hfirst with hf | hf
    · rw [hf]; ring
    · rw [hf]; ring
  have hhead : h.nibbles_count_cur = nibblesDelta h := by
    have := nibble_level_delta h hh
    rw [this, hpe, zero_add]
  have hfin : finalCount h.nibbles_count_cur rest = sumDeltas (h :: rest) := by
    rw [chained_final_count rest h.nibbles_count_cur hrest hchain, hhead]
    simp [sumDeltas]
  refine ⟨?_, hpe, hfin, ?_⟩
  · intro c hcmem
    rcases List.mem_cons.mp hcmem with hc | hc
    · subst hc
      exact nibble_level_delta c hh
    · exact nibble_level_delta c (hrest c hc).1
  · rw [← hfin]
    exact hterm

/--
First level of a concrete two-level nibble-count path: a one-nibble
extension in the first level of the proof (counter 0 → 2).
-/
def extNibbleCellsFirst : ExtNibbleCells ℚ where
  q_not_first := 1
  q_enable := 1
  not_first_level := 0
  is_first_storage_level := 0
  is_ext_longer_than_55 := 0
  is_ext_short_c16 := 1
  is_ext_short_c1 := 0
  is_ext_long_even_c16 := 0
  is_ext_long_even_c1 := 0
  is_ext_long_odd_c16 := 0
  is_ext_long_odd_c1 := 0
  nibbles_count_cur := 2
  nibbles_count_prev := 7
  s_rlp2 := 0
  s_bytes0 := 0

/--
Second level of the concrete path: a two-nibble (long, even) extension not
longer than 55 bytes with `s_rlp2 = 131`, so the counter grows by
`(131 - 128 - 1) * 2 + 1 = 5` (counter 2 → 7).
-/
def extNibbleCellsSecond : ExtNibbleCells ℚ where
  q_not_first := 1
  q_enable := 1
  not_first_level := 1
  is_first_storage_level := 0
  is_ext_longer_than_55 := 0
  is_ext_short_c16 := 0
  is_ext_short_c1 := 0
  is_ext_long_even_c16 := 1
  is_ext_long_even_c1 := 0
  is_ext_long_odd_c16 := 0
  is_ext_long_odd_c1 := 0
  nibbles_count_cur := 7
  nibbles_count_prev := 2
  s_rlp2 := 131
  s_bytes0 := 0

lemma extNibbleCellsFirst_good : goodNibbleLevel extNibbleCellsFirst := by
  refine ⟨?_, rfl, rfl, Or.inl rfl, Or.inl ⟨?_, ?_, ?_⟩⟩ <;>
    norm_num [extNibbleGate, nibblesNumberOneNibble, nibblesNumberEvenNotLonger55,
      nibblesNumberOddNotLonger55, nibblesNumberEvenLonger55, nibblesNumberOddLonger55,
      nibbles_count_prev_eff, get_is_extension_node_one_nibble,
      get_is_extension_node_even_nibbles, get_is_extension_node_long_odd_nibbles,
      extNibbleCellsFirst]

lemma extNibbleCellsSecond_good : goodNibbleLevel extNibbleCellsSecond := by
  refine ⟨?_, rfl, rfl, Or.inl rfl, Or.inr (Or.inl ⟨?_, ?_, ?_⟩)⟩ <;>
    norm_num [extNibbleGate, nibblesNumberOneNibble, nibblesNumberEvenNotLonger55,
      nibblesNumberOddNotLonger55, nibblesNumberEvenLonger55, nibblesNumberOddLonger55,
      nibbles_count_prev_eff, get_is_extension_node_one_nibble,
      get_is_extension_node_even_nibbles, get_is_extension_node_long_odd_nibbles,
      extNibbleCellsSecond]

theorem claim_C3_witness :
    sumDeltas [extNibbleCellsFirst, extNibbleCellsSecond] + 57 = 64 :=
  (claim_C3 extNibbleCellsFirst [extNibbleCellsSecond] 57
    extNibbleCellsFirst_good
    (Or.inl rfl)
    (by
      intro c hc
      rw [List.mem_singleton] at hc
      subst hc
      exact ⟨extNibbleCellsSecond_good, rfl, rfl⟩)
    ⟨rfl, trivial⟩
    (by
      norm_num [leafNibblesCheck, finalCount, extNibbleCellsSecond])).2.2.2

end ExtensionNibbles

section ExtensionSelectorsRLP

variable {F : Type} [Field F]

/-- `get_bool_constraint` (src/mpt/src/helpers.rs:166-172):
`q_enable * expr * (1 - expr)`. -/
def get_bool_constraint (q_enable expr : F) : F :=
  q_enable * expr * (1 - expr)

/--
Cells queried by the gate "Extension node selectors & RLP" of
`ExtensionNodeConfig::configure` for the S extension row
(src/mpt/src/branch/extension_node.rs:311-749).  The selectors live in the
branch init row at `rot_into_branch_init`; `s_rlp1`, `s_rlp2`,
`s_bytes0`, `c_rlp2`, `c_bytes0` are cells of the current extension S row.
-/
structure ExtRLPCells (F : Type) where
  q_not_first : F
  q_enable : F
  is_branch_init_prev : F
  is_ext_short_c16 : F
  is_ext_short_c1 : F
  is_ext_long_even_c16 : F
  is_ext_long_even_c1 : F
  is_ext_long_odd_c16 : F
  is_ext_long_odd_c1 : F
  is_ext_longer_than_55 : F
  is_ext_node_non_hashed : F
  is_branch_c16 : F
  is_branch_c1 : F
  s_rlp1 : F
  s_rlp2 : F
  s_bytes0 : F
  c_rlp2 : F
  c_bytes0 : F

/-- The common enabling factor `q_not_first * q_enable *
(1 - is_branch_init_prev)` of the boolean checks. -/
def extSelEnable (c : ExtRLPCells F) : F :=
  c.q_not_first * c.q_enable * (1 - c.is_branch_init_prev)

/-- Sum of the six extension shape selectors (extension_node.rs:476-481). -/
def extSelectorsSum (c : ExtRLPCells F) : F :=
  c.is_ext_short_c16 + c.is_ext_short_c1 + c.is_ext_long_even_c16 +
    c.is_ext_long_even_c1 + c.is_ext_long_odd_c16 + c.is_ext_long_odd_c1

/-- `is_branch_hashed = c_rlp2 * c160_inv` (extension_node.rs:233, 557). -/
def extIsBranchHashed (c : ExtRLPCells F) : F :=
  c.c_rlp2 * (160 : F)⁻¹

/-- `is_short = is_ext_short_c16 + is_ext_short_c1`
(extension_node.rs:531). -/
def extIsShort (c : ExtRLPCells F) : F :=
  c.is_ext_short_c16 + c.is_ext_short_c1

/-- `is_even_nibbles = is_ext_long_even_c16 + is_ext_long_even_c1`
(extension_node.rs:532). -/
def extIsEvenNibbles (c : ExtRLPCells F) : F :=
  c.is_ext_long_even_c16 + c.is_ext_long_even_c1

/-- `is_long_odd_nibbles = is_ext_long_odd_c16 + is_ext_long_odd_c1`
(extension_node.rs:533). -/
def extIsLongOddNibbles (c : ExtRLPCells F) : F :=
  c.is_ext_long_odd_c16 + c.is_ext_long_odd_c1

/-- Constraint "Bool check extension node selectors sum"
(extension_node.rs:470-483). -/
def boolCheckSelectorsSum (c : ExtRLPCells F) : F :=
  get_bool_constraint (extSelEnable c) (extSelectorsSum c)

/-- One instance of the closure `constrain_sel` (extension_node.rs:508-517):
`enable * ext_sel * (branch_sel - ext_sel)`. -/
def constrain_sel (c : ExtRLPCells F) (branch_sel ext_sel : F) : F :=
  extSelEnable c * ext_sel * (branch_sel - ext_sel)

/-- Constraint "Long & even implies s_bytes0 = 0"
(extension_node.rs:548-554). -/
def longEvenImpliesSBytes0Zero (c : ExtRLPCells F) : F :=
  c.q_not_first * c.q_enable * extIsEvenNibbles c * c.s_bytes0

/-- Constraint "One nibble & hashed branch RLP" (extension_node.rs:570-578):
`s_rlp1 - 192 - 33 - 1`. -/
def oneNibbleHashedRLP (c : ExtRLPCells F) : F :=
  c.q_not_first * c.q_enable * extIsShort c * extIsBranchHashed c *
    (c.s_rlp1 - 192 - 33 - 1)

/-- Constraint "One nibble & non-hashed branch RLP"
(extension_node.rs:594-602): `s_rlp1 - 192 - 1 - (c_bytes0 - 192) - 1`. -/
def oneNibbleNonHashedRLP (c : ExtRLPCells F) : F :=
  c.q_not_first * c.q_enable * extIsShort c * (1 - extIsBranchHashed c) *
    (c.s_rlp1 - 192 - 1 - (c.c_bytes0 - 192) - 1)

/-- Constraint "More than one nibble & hashed branch & ext not longer than
55 RLP" (extension_node.rs:618-626). -/
def moreNibblesHashedNotLonger55RLP (c : ExtRLPCells F) : F :=
  c.q_not_first * c.q_enable * (1 - c.is_ext_longer_than_55) *
    (extIsEvenNibbles c + extIsLongOddNibbles c) * extIsBranchHashed c *
    (c.s_rlp1 - 192 - (c.s_rlp2 - 128) - 1 - 33)

/-- Constraint "More than one nibble & non-hashed branch & ext not longer
than 55 RLP" (extension_node.rs:634-643). -/
def moreNibblesNonHashedNotLonger55RLP (c : ExtRLPCells F) : F :=
  c.q_not_first * c.q_enable * (1 - c.is_ext_longer_than_55) *
    (extIsEvenNibbles c + extIsLongOddNibbles c) * (1 - extIsBranchHashed c) *
    (c.s_rlp1 - 192 - (c.s_rlp2 - 128) - 1 - (c.c_bytes0 - 192) - 1)

/-- Constraint "Extension longer than 55 RLP: s_rlp1 = 248"
(extension_node.rs:659-665). -/
def longerThan55Rlp1Is248 (c : ExtRLPCells F) : F :=
  c.q_not_first * c.q_enable * c.is_ext_longer_than_55 * (c.s_rlp1 - 248)

/-- Constraint "Hashed branch & ext longer than 55 RLP"
(extension_node.rs:681-688): `s_rlp2 - (s_bytes0 - 128) - 1 - 33`. -/
def hashedLongerThan55RLP (c : ExtRLPCells F) : F :=
  c.q_not_first * c.q_enable * c.is_ext_longer_than_55 * extIsBranchHashed c *
    (c.s_rlp2 - (c.s_bytes0 - 128) - 1 - 33)

/-- Constraint "Non-hashed branch & ext longer than 55 RLP"
(extension_node.rs:701-709).  Note that the expression constrains `s_rlp1`
(already forced to 248 by `longerThan55Rlp1Is248`), although the source's
own comment above it says it checks `s_main.rlp2`. -/
def nonHashedLongerThan55RLP (c : ExtRLPCells F) : F :=
  c.q_not_first * c.q_enable * c.is_ext_longer_than_55 *
    (1 - extIsBranchHashed c) *
    (c.s_rlp1 - (c.s_bytes0 - 128) - 1 - (c.c_bytes0 - 192) - 1)

/-- The gate "Extension node selectors & RLP" (S side) accepts an
assignment when every one of its constraint expressions is zero. -/
def extRLPGate (c : ExtRLPCells F) : Prop :=
  get_bool_constraint (extSelEnable c) c.is_ext_short_c16 = 0 ∧
  get_bool_constraint (extSelEnable c) c.is_ext_short_c1 = 0 ∧
  get_bool_constraint (extSelEnable c) c.is_ext_long_even_c16 = 0 ∧
  get_bool_constraint (extSelEnable c) c.is_ext_long_even_c1 = 0 ∧
  get_bool_constraint (extSelEnable c) c.is_ext_long_odd_c16 = 0 ∧
  get_bool_constraint (extSelEnable c) c.is_ext_long_odd_c1 = 0 ∧
  get_bool_constraint (extSelEnable c) c.is_ext_longer_than_55 = 0 ∧
  get_bool_constraint (extSelEnable c) c.is_ext_node_non_hashed = 0 ∧
  boolCheckSelectorsSum c = 0 ∧
  constrain_sel c c.is_branch_c16 c.is_ext_short_c16 = 0 ∧
  constrain_sel c c.is_branch_c1 c.is_ext_short_c1 = 0 ∧
  constrain_sel c c.is_branch_c16 c.is_ext_long_even_c16 = 0 ∧
  constrain_sel c c.is_branch_c1 c.is_ext_long_even_c1 = 0 ∧
  constrain_sel c c.is_branch_c16 c.is_ext_long_odd_c16 = 0 ∧
  constrain_sel c c.is_branch_c1 c.is_ext_long_odd_c1 = 0 ∧
  longEvenImpliesSBytes0Zero c = 0 ∧
  oneNibbleHashedRLP c = 0 ∧
  oneNibbleNonHashedRLP c = 0 ∧
  moreNibblesHashedNotLonger55RLP c = 0 ∧
  moreNibblesNonHashedNotLonger55RLP c = 0 ∧
  longerThan55Rlp1Is248 c = 0 ∧
  hashedLongerThan55RLP c = 0 ∧
  nonHashedLongerThan55RLP c = 0

lemma bool_of_constraint {s f : F} (hs : s = 1)
    (h : get_bool_constraint s f = 0) : f = 0 ∨ f = 1 := by
  unfold get_bool_constraint at h
  rw [hs] at h
  have h0 : f * (1 - f) = 0 := by linear_combination h
  rcases mul_eq_zero.mp h0 with h1 | h1
  · exact Or.inl h1
  · exact Or.inr (by linear_combination -h1)

lemma agree_of_constrain_sel {c : ExtRLPCells F} {bs es : F}
    (hsel : extSelEnable c = 1) (hes : es = 1)
    (h : constrain_sel c bs es = 0) : bs = 1 := by
  unfold constrain_sel at h
  rw [hsel, hes] at h
  linear_combination h

/--
Claim C6: in any assignment accepted by the "Extension node selectors &
RLP" gate on a non-branch-init row, in a field where 2, 3 and 5 do not
vanish, the six extension shape selectors are each boolean, their sum is
boolean, and on an extension row (nonzero selector sum) exactly one of the
six is 1 and all others are 0; moreover whichever selector is set agrees
with the branch's `is_branch_c16` / `is_branch_c1` selector.
-/
theorem claim_C6 (c : ExtRLPCells F)
    (h2 : (2 : F) ≠ 0) (h3 : (3 : F) ≠ 0) (h5 : (5 : F) ≠ 0)
    (hg : extRLPGate c)
    (hq : c.q_not_first = 1) (he : c.q_enable = 1)
    (hib : c.is_branch_init_prev = 0)
    (hext : extSelectorsSum c ≠ 0) :
    ((c.is_ext_short_c16 = 0 ∨ c.is_ext_short_c16 = 1) ∧
     (c.is_ext_short_c1 = 0 ∨ c.is_ext_short_c1 = 1) ∧
     (c.is_ext_long_even_c16 = 0 ∨ c.is_ext_long_even_c16 = 1) ∧
     (c.is_ext_long_even_c1 = 0 ∨ c.is_ext_long_even_c1 = 1) ∧
     (c.is_ext_long_odd_c16 = 0 ∨ c.is_ext_long_odd_c16 = 1) ∧
     (c.is_ext_long_odd_c1 = 0 ∨ c.is_ext_long_odd_c1 = 1)) ∧
    extSelectorsSum c = 1 ∧
    ((c.is_ext_short_c16 = 1 ∧ c.is_ext_short_c1 = 0 ∧
        c.is_ext_long_even_c16 = 0 ∧ c.is_ext_long_even_c1 = 0 ∧
        c.is_ext_long_odd_c16 = 0 ∧ c.is_ext_long_odd_c1 = 0) ∨
     (c.is_ext_short_c16 = 0 ∧ c.is_ext_short_c1 = 1 ∧
        c.is_ext_long_even_c16 = 0 ∧ c.is_ext_long_even_c1 = 0 ∧
        c.is_ext_long_odd_c16 = 0 ∧ c.is_ext_long_odd_c1 = 0) ∨
     (c.is_ext_short_c16 = 0 ∧ c.is_ext_short_c1 = 0 ∧
        c.is_ext_long_even_c16 = 1 ∧ c.is_ext_long_even_c1 = 0 ∧
        c.is_ext_long_odd_c16 = 0 ∧ c.is_ext_long_odd_c1 = 0) ∨
     (c.is_ext_short_c16 = 0 ∧ c.is_ext_short_c1 = 0 ∧
        c.is_ext_long_even_c16 = 0 ∧ c.is_ext_long_even_c1 = 1 ∧
        c.is_ext_long_odd_c16 = 0 ∧ c.is_ext_long_odd_c1 = 0) ∨
     (c.is_ext_short_c16 = 0 ∧ c.is_ext_short_c1 = 0 ∧
        c.is_ext_long_even_c16 = 0 ∧ c.is_ext_long_even_c1 = 0 ∧
        c.is_ext_long_odd_c16 = 1 ∧ c.is_ext_long_odd_c1 = 0) ∨
     (c.is_ext_short_c16 = 0 ∧ c.is_ext_short_c1 = 0 ∧
        c.is_ext_long_even_c16 = 0 ∧ c.is_ext_long_even_c1 = 0 ∧
        c.is_ext_long_odd_c16 = 0 ∧ c.is_ext_long_odd_c1 = 1)) ∧
    ((c.is_ext_short_c16 = 1 → c.is_branch_c16 = 1) ∧
     (c.is_ext_short_c1 = 1 → c.is_branch_c1 = 1) ∧
     (c.is_ext_long_even_c16 = 1 → c.is_branch_c16 = 1) ∧
     (c.is_ext_long_even_c1 = 1 → c.is_branch_c1 = 1) ∧
     (c.is_ext_long_odd_c16 = 1 → c.is_branch_c16 = 1) ∧
     (c.is_ext_long_odd_c1 = 1 → c.is_branch_c1 = 1)) := by
  obtain ⟨g1, g2, g3, g4, g5, g6, g7, g8, g9, g10, g11, g12, g13, g14, g15,
    _g16, _g17, _g18, _g19, _g20, _g21, _g22, _g23⟩ := hg
  have hsel : extSelEnable c = 1 := by
    unfold extSelEnable
    rw [hq, he, hib]
    ring
  have hb1 := bool_of_constraint hsel g1
  have hb2 := bool_of_constraint hsel g2
  have hb3 := bool_of_constraint hsel g3
  have hb4 := bool_of_constraint hsel g4
  have hb5 := bool_of_constraint hsel g5
  have hb6 := bool_of_constraint hsel g6
  have hsums := bool_of_constraint hsel g9
  have hsum1 : extSelectorsSum c = 1 := by
    rcases hsums with hh | hh
    · exact absurd hh hext
    · exact hh
  have k0 : ((0 : F) = 1) → False := fun hk => one_ne_zero hk.symm
  have k2 : ((2 : F) = 1) → False := fun hk => one_ne_zero (by linear_combination hk)
  have k3 : ((3 : F) = 1) → False := fun hk => h2 (by linear_combination hk)
  have k4 : ((4 : F) = 1) → False := fun hk => h3 (by linear_combination hk)
  have k5 : ((5 : F) = 1) → False :=
    fun hk => h2 (mul_self_eq_zero.mp (by linear_combination hk))
  have k6 : ((6 : F) = 1) → False := fun hk => h5 (by linear_combination hk)
  have hexact :
      (c.is_ext_short_c16 = 1 ∧ c.is_ext_short_c1 = 0 ∧
        c.is_ext_long_even_c16 = 0 ∧ c.is_ext_long_even_c1 = 0 ∧
        c.is_ext_long_odd_c16 = 0 ∧ c.is_ext_long_odd_c1 = 0) ∨
      (c.is_ext_short_c16 = 0 ∧ c.is_ext_short_c1 = 1 ∧
        c.is_ext_long_even_c16 = 0 ∧ c.is_ext_long_even_c1 = 0 ∧
        c.is_ext_long_odd_c16 = 0 ∧ c.is_ext_long_odd_c1 = 0) ∨
      (c.is_ext_short_c16 = 0 ∧ c.is_ext_short_c1 = 0 ∧
        c.is_ext_long_even_c16 = 1 ∧ c.is_ext_long_even_c1 = 0 ∧
        c.is_ext_long_odd_c16 = 0 ∧ c.is_ext_long_odd_c1 = 0) ∨
      (c.is_ext_short_c16 = 0 ∧ c.is_ext_short_c1 = 0 ∧
        c.is_ext_long_even_c16 = 0 ∧ c.is_ext_long_even_c1 = 1 ∧
        c.is_ext_long_odd_c16 = 0 ∧ c.is_ext_long_odd_c1 = 0) ∨
      (c.is_ext_short_c16 = 0 ∧ c.is_ext_short_c1 = 0 ∧
        c.is_ext_long_even_c16 = 0 ∧ c.is_ext_long_even_c1 = 0 ∧
        c.is_ext_long_odd_c16 = 1 ∧ c.is_ext_long_odd_c1 = 0) ∨
      (c.is_ext_short_c16 = 0 ∧ c.is_ext_short_c1 = 0 ∧
        c.is_ext_long_even_c16 = 0 ∧ c.is_ext_long_even_c1 = 0 ∧
        c.is_ext_long_odd_c16 = 0 ∧ c.is_ext_long_odd_c1 = 1) := by
    unfold extSelectorsSum at hsum1
    rcases hb1 with ha1 | ha1 <;> rcases hb2 with ha2 | ha2 <;>
      rcases hb3 with ha3 | ha3 <;> rcases hb4 with ha4 | ha4 <;>
      rcases hb5 with ha5 | ha5 <;> rcases hb6 with ha6 | ha6 <;>
      rw [ha1, ha2, ha3, ha4, ha5, ha6] at hsum1 <;>
      first
        | exact absurd hsum1 (fun hh => k0 (by linear_combination hh))
        | exact absurd hsum1 (fun hh => k2 (by linear_combination hh))
        | exact absurd hsum1 (fun hh => k3 (by linear_combination hh))
        | exact absurd hsum1 (fun hh => k4 (by linear_combination hh))
        | exact absurd hsum1 (fun hh => k5 (by linear_combination hh))
        | exact absurd hsum1 (fun hh => k6 (by linear_combination hh))
        | exact Or.inl ⟨ha1, ha2, ha3, ha4, ha5, ha6⟩
        | exact Or.inr (Or.inl ⟨ha1, ha2, ha3, ha4, ha5, ha6⟩)
        | exact Or.inr (Or.inr (Or.inl ⟨ha1, ha2, ha3, ha4, ha5, ha6⟩))
        | exact Or.inr (Or.inr (Or.inr (Or.inl ⟨ha1, ha2, ha3, ha4, ha5, ha6⟩)))
        | exact Or.inr (Or.inr (Or.inr (Or.inr (Or.inl ⟨ha1, ha2, ha3, ha4, ha5, ha6⟩))))
        | exact Or.inr (Or.inr (Or.inr (Or.inr (Or.inr ⟨ha1, ha2, ha3, ha4, ha5, ha6⟩))))
  refine ⟨⟨hb1, hb2, hb3, hb4, hb5, hb6⟩, hsum1, hexact, ?_, ?_, ?_, ?_, ?_, ?_⟩
  · intro hone; exact agree_of_constrain_sel hsel hone g10
  · intro hone; exact agree_of_constrain_sel hsel hone g11
  · intro hone; exact agree_of_constrain_sel hsel hone g12
  · intro hone; exact agree_of_constrain_sel hsel hone g13
  · intro hone; exact agree_of_constrain_sel hsel hone g14
  · intro hone; exact agree_of_constrain_sel hsel hone g15

/--
Concrete accepted assignment for the selectors & RLP gate: a one-nibble
extension (`is_ext_short_c16 = 1`) with a hashed embedded branch
(`c_rlp2 = 160`), `s_rlp1 = 226 = 192 + 1 + 33`.
-/
def extRLPCellsShortHashed : ExtRLPCells ℚ where
  q_not_first := 1
  q_enable := 1
  is_branch_init_prev := 0
  is_ext_short_c16 := 1
  is_ext_short_c1 := 0
  is_ext_long_even_c16 := 0
  is_ext_long_even_c1 := 0
  is_ext_long_odd_c16 := 0
  is_ext_long_odd_c1 := 0
  is_ext_longer_than_55 := 0
  is_ext_node_non_hashed := 0
  is_branch_c16 := 1
  is_branch_c1 := 0
  s_rlp1 := 226
  s_rlp2 := 0
  s_bytes0 := 0
  c_rlp2 := 160
  c_bytes0 := 0

lemma extRLPCellsShortHashed_gate : extRLPGate extRLPCellsShortHashed := by
  norm_num [extRLPGate, get_bool_constraint, extSelEnable, extSelectorsSum,
    boolCheckSelectorsSum, constrain_sel, longEvenImpliesSBytes0Zero,
    oneNibbleHashedRLP, oneNibbleNonHashedRLP, moreNibblesHashedNotLonger55RLP,
    moreNibblesNonHashedNotLonger55RLP, longerThan55Rlp1Is248,
    hashedLongerThan55RLP, nonHashedLongerThan55RLP, extIsBranchHashed,
    extIsShort, extIsEvenNibbles, extIsLongOddNibbles, extRLPCellsShortHashed]

theorem claim_C6_witness :
    extSelectorsSum extRLPCellsShortHashed = 1 :=
  (claim_C6 extRLPCellsShortHashed (by norm_num) (by norm_num) (by norm_num)
    extRLPCellsShortHashed_gate rfl rfl rfl
    (by norm_num [extSelectorsSum, extRLPCellsShortHashed])).2.1

/--
Assignment for the selectors & RLP gate exhibiting the unconstrained
`s_rlp2` in the longer-than-55, non-hashed-branch case: a long-odd
extension (`is_ext_long_odd_c16 = 1`) longer than 55 bytes (`s_rlp1 = 248`)
with a non-hashed embedded branch (`c_rlp2 = 0`); `s_bytes0 = 131` and
`c_bytes0 = 435` satisfy the gate's `s_rlp1`-based length equation
`248 = (131 - 128) + 1 + (435 - 192) + 1`, while `s_rlp2 = 135` violates
the documented `s_rlp2`-based equation.
-/
def extRLPCellsLonger55NonHashed : ExtRLPCells ℚ where
  q_not_first := 1
  q_enable := 1
  is_branch_init_prev := 0
  is_ext_short_c16 := 0
  is_ext_short_c1 := 0
  is_ext_long_even_c16 := 0
  is_ext_long_even_c1 := 0
  is_ext_long_odd_c16 := 1
  is_ext_long_odd_c1 := 0
  is_ext_longer_than_55 := 1
  is_ext_node_non_hashed := 0
  is_branch_c16 := 1
  is_branch_c1 := 0
  s_rlp1 := 248
  s_rlp2 := 135
  s_bytes0 := 131
  c_rlp2 := 0
  c_bytes0 := 435

/--
Claim C5 fails on the code in the longer-than-55, non-hashed-branch shape
class: the gate accepts this assignment (with `s_rlp1 = 248` as required),
yet `s_rlp2` violates the claimed analogous length equation
`s_rlp2 = (s_bytes0 - 128) + 1 + (c_bytes0 - 192) + 1` — the source
constrains `s_rlp1` a second time instead of `s_rlp2`, contradicting its
own doc comment, and leaves `s_rlp2` unconstrained in this class.
-/
theorem claim_C5 :
    extRLPGate extRLPCellsLonger55NonHashed ∧
    extRLPCellsLonger55NonHashed.is_ext_longer_than_55 = 1 ∧
    extIsBranchHashed extRLPCellsLonger55NonHashed = 0 ∧
    extIsLongOddNibbles extRLPCellsLonger55NonHashed = 1 ∧
    extRLPCellsLonger55NonHashed.s_rlp1 = 248 ∧
    extRLPCellsLonger55NonHashed.s_rlp2 ≠
      (extRLPCellsLonger55NonHashed.s_bytes0 - 128) + 1 +
        (extRLPCellsLonger55NonHashed.c_bytes0 - 192) + 1 := by
  refine ⟨?_, rfl, ?_, ?_, rfl, ?_⟩
  · norm_num [extRLPGate, get_bool_constraint, extSelEnable, extSelectorsSum,
      boolCheckSelectorsSum, constrain_sel, longEvenImpliesSBytes0Zero,
      oneNibbleHashedRLP, oneNibbleNonHashedRLP, moreNibblesHashedNotLonger55RLP,
      moreNibblesNonHashedNotLonger55RLP, longerThan55Rlp1Is248,
      hashedLongerThan55RLP, nonHashedLongerThan55RLP, extIsBranchHashed,
      extIsShort, extIsEvenNibbles, extIsLongOddNibbles, extRLPCellsLonger55NonHashed]
  · norm_num [extIsBranchHashed, extRLPCellsLonger55NonHashed]
  · norm_num [extIsLongOddNibbles, extRLPCellsLonger55NonHashed]
  · norm_num [extRLPCellsLonger55NonHashed]

end ExtensionSelectorsRLP

section AccountNonExisting

variable {F : Type} [Field F]

/--
Cells queried by the gates of `AccountNonExistingConfig::configure`
(src/zkevm-circuits/src/mpt_circuit/account_leaf/account_non_existing.rs:
113-297 and 370-391).  The current row is ACCOUNT_NON_EXISTING, the
previous row ACCOUNT_LEAF_KEY; `is_wrong_leaf` is read from `s_main.rlp1`
of the current row; `sum`, `sum_prev` and `diff_inv` are the prover-supplied
witnesses stored in `accs.key.rlc`, `accs.key.mult` and `accs.acc_s.rlc`;
`key_rlc_acc_start`/`key_mult_start` are the key RLC pair accumulated at
the first branch child above the leaf, `c16`/`c1` the branch init
convention selectors, and `is_nil_object` the `sel1` cell of the first
branch child.
-/
structure AccountNonExistingCells (F : Type) where
  q_enable : F
  not_first_level : F
  is_wrong_leaf : F
  key_rlc_acc_start : F
  key_mult_start : F
  c16 : F
  c1 : F
  s_bytes_cur : ℕ → F
  s_bytes_prev : ℕ → F
  c_rlp1_cur : F
  c_rlp2_cur : F
  c_rlp1_prev : F
  c_rlp2_prev : F
  sum : F
  sum_prev : F
  diff_inv : F
  address_rlc : F
  is_nil_object : F

/-- `is_leaf_in_first_level = 1 - not_first_level`
(account_non_existing.rs:194-195). -/
def is_leaf_in_first_level (c : AccountNonExistingCells F) : F :=
  1 - c.not_first_level

/-- The recomputed key-byte RLC of the ACCOUNT_NON_EXISTING row
(account_non_existing.rs:129-143): bytes 1..31 of `s_main`, then
`c_main.rlp1`, `c_main.rlp2`, weighted by `r^1, r^2, ...`. -/
def sum_check (c : AccountNonExistingCells F) (r : F) : F :=
  (∑ i ∈ Finset.range 31, c.s_bytes_cur (1 + i) * r ^ (1 + i)) +
    c.c_rlp1_cur * r ^ 32 + c.c_rlp2_cur * r ^ 33

/-- The recomputed key-byte RLC of the ACCOUNT_LEAF_KEY row
(account_non_existing.rs:129-143, `Rotation::prev()` cells). -/
def sum_prev_check (c : AccountNonExistingCells F) (r : F) : F :=
  (∑ i ∈ Finset.range 31, c.s_bytes_prev (1 + i) * r ^ (1 + i)) +
    c.c_rlp1_prev * r ^ 32 + c.c_rlp2_prev * r ^ 33

/-- The key multiplier after the first remaining nibble
(account_non_existing.rs:225-226): advanced by `r` under `c16`, kept under
`c1`. -/
def nonExistingKeyMult (c : AccountNonExistingCells F) (r : F) : F :=
  c.key_mult_start * r * c.c16 + c.key_mult_start * c.c1

/-- The key RLC of the enquired address rebuilt from the branch
accumulator and the remaining nibbles in the ACCOUNT_NON_EXISTING row
(account_non_existing.rs:222-251): `s_main.bytes[1] - 48` weighted under
`c16`, then `s_main.bytes[2..31]`, `c_main.rlp1`, `c_main.rlp2` with
powers of `r`. -/
def key_rlc_acc (c : AccountNonExistingCells F) (r : F) : F :=
  c.key_rlc_acc_start + (c.s_bytes_cur 1 - 48) * c.key_mult_start * c.c16 +
    c.s_bytes_cur 2 * nonExistingKeyMult c r +
    (∑ i ∈ Finset.range 29, c.s_bytes_cur (3 + i) * nonExistingKeyMult c r * r ^ (1 + i)) +
    c.c_rlp1_cur * nonExistingKeyMult c r * r ^ 30 +
    c.c_rlp2_cur * nonExistingKeyMult c r * r ^ 31

/-- Constraint "Account leaf key acc s_advice1"
(account_non_existing.rs:231-238). -/
def accountLeafKeyAccSAdvice1 (c : AccountNonExistingCells F) : F :=
  c.q_enable * (1 - is_leaf_in_first_level c) * c.is_wrong_leaf *
    (c.s_bytes_cur 1 - 32) * c.c1

/-- Constraint "Account address RLC" (account_non_existing.rs:268-274). -/
def accountAddressRLCCheck (c : AccountNonExistingCells F) (r : F) : F :=
  c.q_enable * (1 - is_leaf_in_first_level c) * c.is_wrong_leaf *
    (key_rlc_acc c r - c.address_rlc)

/-- Constraint "Wrong leaf sum check" (account_non_existing.rs:149-155). -/
def wrongLeafSumCheck (c : AccountNonExistingCells F) (r : F) : F :=
  c.q_enable * (1 - is_leaf_in_first_level c) * c.is_wrong_leaf *
    (c.sum - sum_check c r)

/-- Constraint "Wrong leaf sum_prev check"
(account_non_existing.rs:161-167). -/
def wrongLeafSumPrevCheck (c : AccountNonExistingCells F) (r : F) : F :=
  c.q_enable * (1 - is_leaf_in_first_level c) * c.is_wrong_leaf *
    (c.sum_prev - sum_prev_check c r)

/-- Constraint "Address of a leaf is different than address being inquired"
(account_non_existing.rs:173-179): `1 - (sum - sum_prev) * diff_inv`. -/
def wrongLeafAddressDiff (c : AccountNonExistingCells F) : F :=
  c.q_enable * (1 - is_leaf_in_first_level c) * c.is_wrong_leaf *
    (1 - (c.sum - c.sum_prev) * c.diff_inv)

/-- Constraint "Nil object in parent branch"
(account_non_existing.rs:287-293). -/
def nilObjectInParentBranch (c : AccountNonExistingCells F) : F :=
  c.q_enable * (1 - is_leaf_in_first_level c) * (1 - c.is_wrong_leaf) *
    (1 - c.is_nil_object)

/-- Constraint "The number of nibbles in the wrong leaf and the enquired
address are the same" (account_non_existing.rs:384-387). -/
def sameNibblesLengthCheck (c : AccountNonExistingCells F) : F :=
  c.q_enable * c.is_wrong_leaf * (c.s_bytes_cur 0 - c.s_bytes_prev 0)

/-- The gates "Non existing account proof leaf address RLC (leaf not in
first level, branch not placeholder)" and "Address of wrong leaf and the
enquired address are of the same length" accept an assignment when all
their constraint expressions are zero. -/
def accountNonExistingGate (c : AccountNonExistingCells F) (r : F) : Prop :=
  accountLeafKeyAccSAdvice1 c = 0 ∧
  accountAddressRLCCheck c r = 0 ∧
  wrongLeafSumCheck c r = 0 ∧
  wrongLeafSumPrevCheck c r = 0 ∧
  wrongLeafAddressDiff c = 0 ∧
  nilObjectInParentBranch c = 0 ∧
  sameNibblesLengthCheck c = 0

/--
Claim C7: in any assignment for the non-existence proof accepted by the
gates, not in the first level, the wrong-leaf assertions hold: `sum` and
`sum_prev` really are the key-byte RLCs of the ACCOUNT_NON_EXISTING and
ACCOUNT_LEAF_KEY rows, their difference has the prover-supplied
multiplicative inverse (`(sum - sum_prev) * diff_inv = 1`) and is hence
nonzero, the key RLC rebuilt from the branches above extended with the
remaining nibbles equals `address_rlc`, and the key-length bytes
`s_main.bytes[0]` of the two rows agree; with no wrong leaf, the parent
branch must hold a nil object (`sel1 = 1`).
-/
theorem claim_C7 (c : AccountNonExistingCells F) (r : F)
    (hg : accountNonExistingGate c r)
    (hq : c.q_enable = 1)
    (hntl : c.not_first_level = 1) :
    (c.is_wrong_leaf = 1 →
      (c.sum - c.sum_prev) * c.diff_inv = 1 ∧
      c.sum ≠ c.sum_prev ∧
      c.sum = sum_check c r ∧
      c.sum_prev = sum_prev_check c r ∧
      key_rlc_acc c r = c.address_rlc ∧
      c.s_bytes_cur 0 = c.s_bytes_prev 0) ∧
    (c.is_wrong_leaf = 0 → c.is_nil_object = 1) := by
  obtain ⟨h1, h2, h3, h4, h5, h6, h7⟩ := hg
  have hlvl : (1 : F) - is_leaf_in_first_level c = 1 := by
    unfold is_leaf_in_first_level
    rw [hntl]
    ring
  constructor
  · intro hwl
    unfold wrongLeafAddressDiff at h5
    rw [hq, hlvl, hwl] at h5
    have hinv : (c.sum - c.sum_prev) * c.diff_inv = 1 := by linear_combination -h5
    refine ⟨hinv, ?_, ?_, ?_, ?_, ?_⟩
    · intro heq
      have hzero : (1 : F) = 0 := by
        rw [← hinv, heq]
        ring
      exact one_ne_zero hzero
    · unfold wrongLeafSumCheck at h3
      rw [hq, hlvl, hwl] at h3
      linear_combination h3
    · unfold wrongLeafSumPrevCheck at h4
      rw [hq, hlvl, hwl] at h4
      linear_combination h4
    · unfold accountAddressRLCCheck at h2
      rw [hq, hlvl, hwl] at h2
      linear_combination h2
    · unfold sameNibblesLengthCheck at h7
      rw [hq, hwl] at h7
      linear_combination h7
  · intro hwl
    unfold nilObjectInParentBranch at h6
    rw [hq, hlvl, hwl] at h6
    linear_combination -h6

/--
Concrete accepted assignment for the non-existence gates with randomness 1:
the wrong leaf's remaining key bytes are `(50, 2)` and the enquired
address's remaining bytes are `(50, 3)` (they differ in the last byte), so
`sum = 53`, `sum_prev = 52` and `diff_inv = 1`; the rebuilt address RLC is
`(50 - 48) + 3 = 5`.
-/
def accountNonExistingCellsExample : AccountNonExistingCells ℚ where
  q_enable := 1
  not_first_level := 1
  is_wrong_leaf := 1
  key_rlc_acc_start := 0
  key_mult_start := 1
  c16 := 1
  c1 := 0
  s_bytes_cur := fun i => if i = 1 then 50 else if i = 2 then 3 else 0
  s_bytes_prev := fun i => if i = 1 then 50 else if i = 2 then 2 else 0
  c_rlp1_cur := 0
  c_rlp2_cur := 0
  c_rlp1_prev := 0
  c_rlp2_prev := 0
  sum := 53
  sum_prev := 52
  diff_inv := 1
  address_rlc := 5
  is_nil_object := 0

lemma accountNonExistingCellsExample_gate :
    accountNonExistingGate accountNonExistingCellsExample 1 := by
  refine ⟨?_, ?_, ?_, ?_, ?_, ?_, ?_⟩ <;>
    norm_num [accountLeafKeyAccSAdvice1, accountAddressRLCCheck, wrongLeafSumCheck,
      wrongLeafSumPrevCheck, wrongLeafAddressDiff, nilObjectInParentBranch,
      sameNibblesLengthCheck, is_leaf_in_first_level, sum_check, sum_prev_check,
      key_rlc_acc, nonExistingKeyMult, Finset.sum_range_succ,
      accountNonExistingCellsExample]

theorem claim_C7_witness :
    (accountNonExistingCellsExample.sum - accountNonExistingCellsExample.sum_prev) *
      accountNonExistingCellsExample.diff_inv = 1 :=
  ((claim_C7 accountNonExistingCellsExample 1 accountNonExistingCellsExample_gate
    rfl rfl).1 rfl).1

end AccountNonExisting

section ProofValuesLifecycle

variable {F : Type} [Field F]

/--
Embedding of the accumulator state `ProofValues`
(src/mpt/src/mpt.rs:126-179), threaded through the witness-assignment fold.
`u8`/`usize` fields become `ℕ`, `i32` becomes `ℤ`.
-/
structure ProofValues (F : Type) where
  modified_node : ℕ
  s_mod_node_hash_rlc : F
  c_mod_node_hash_rlc : F
  node_index : ℕ
  acc_s : F
  acc_mult_s : F
  acc_account_s : F
  acc_mult_account_s : F
  acc_account_c : F
  acc_mult_account_c : F
  acc_nonce_balance_s : F
  acc_mult_nonce_balance_s : F
  acc_nonce_balance_c : F
  acc_mult_nonce_balance_c : F
  acc_c : F
  acc_mult_c : F
  key_rlc : F
  key_rlc_mult : F
  extension_node_rlc : F
  key_rlc_prev : F
  key_rlc_mult_prev : F
  mult_diff : F
  key_rlc_sel : Bool
  is_branch_s_placeholder : Bool
  is_branch_c_placeholder : Bool
  drifted_pos : ℕ
  rlp_len_rem_s : ℤ
  rlp_len_rem_c : ℤ
  is_extension_node : Bool
  is_even : Bool
  is_odd : Bool
  is_short : Bool
  is_long : Bool
  rlc1 : F
  rlc2 : F
  nonce_value_s : F
  balance_value_s : F
  before_account_leaf : Bool
  nibbles_num : ℕ

/-- The `Default` state of `ProofValues` (all fields zero / false). -/
def ProofValues.zeroed : ProofValues F where
  modified_node := 0
  s_mod_node_hash_rlc := 0
  c_mod_node_hash_rlc := 0
  node_index := 0
  acc_s := 0
  acc_mult_s := 0
  acc_account_s := 0
  acc_mult_account_s := 0
  acc_account_c := 0
  acc_mult_account_c := 0
  acc_nonce_balance_s := 0
  acc_mult_nonce_balance_s := 0
  acc_nonce_balance_c := 0
  acc_mult_nonce_balance_c := 0
  acc_c := 0
  acc_mult_c := 0
  key_rlc := 0
  key_rlc_mult := 0
  extension_node_rlc := 0
  key_rlc_prev := 0
  key_rlc_mult_prev := 0
  mult_diff := 0
  key_rlc_sel := false
  is_branch_s_placeholder := false
  is_branch_c_placeholder := false
  drifted_pos := 0
  rlp_len_rem_s := 0
  rlp_len_rem_c := 0
  is_extension_node := false
  is_even := false
  is_odd := false
  is_short := false
  is_long := false
  rlc1 := 0
  rlc2 := 0
  nonce_value_s := 0
  balance_value_s := 0
  before_account_leaf := false
  nibbles_num := 0

/-- `ProofValues::new` (src/mpt/src/mpt.rs:181-192): key multiplier 1, c16
convention selected (`key_rlc_sel = true`), everything else default. -/
def ProofValues.new : ProofValues F :=
  { ProofValues.zeroed with
    key_rlc_mult := 1
    key_rlc_mult_prev := 1
    mult_diff := 1
    key_rlc_sel := true
    before_account_leaf := true }

/--
The reset decision of `MPTConfig::assign` (src/mpt/src/mpt.rs:932-939):
`pv = ProofValues::new()` is executed exactly when `offset > 0` and the
`not_first_level` flag goes from 1 in the previous row to 0 in the current
row.
-/
def shouldResetProofValues (offset : ℕ)
    (not_first_level_prev not_first_level_cur : ℕ) : Bool :=
  decide (offset > 0) && (not_first_level_cur == 0 && not_first_level_prev == 1)

/--
The `AccountLeafNeighbouringLeaf` case of `MPTConfig::assign`
(src/mpt/src/mpt.rs:1008-1017): on this row the key accumulator sub-state
is put back into its initial state ("account address until here, storage
key from here on") while the rest of `ProofValues` is carried forward.
-/
def accountLeafNeighbouringLeafUpdate (pv : ProofValues F) : ProofValues F :=
  { pv with
    key_rlc := 0
    key_rlc_mult := 1
    key_rlc_prev := 0
    key_rlc_mult_prev := 1
    key_rlc_sel := true
    nibbles_num := 0 }

/--
Concrete mid-proof accumulator state: key RLC 5 with the c1 convention and
3 nibbles consumed, node RLC accumulator 7.
-/
def proofValuesMidProof : ProofValues ℚ :=
  { ProofValues.new with
    key_rlc := 5
    key_rlc_sel := false
    nibbles_num := 3
    acc_s := 7 }

/--
Claim C8 as stated is false on the code: at an `AccountLeafNeighbouringLeaf`
row with no first-level transition (`not_first_level` stays 1, so the
classifier does not re-create `ProofValues`), the assignment loop still
resets the key accumulator fields to their initial state (`key_rlc` 5 → 0,
multiplier → 1, c16 convention re-selected, nibble counter → 0) instead of
only carrying them forward and folding.
-/
theorem claim_C8_counterexample :
    shouldResetProofValues 5 1 1 = false ∧
    proofValuesMidProof.key_rlc ≠ (ProofValues.new : ProofValues ℚ).key_rlc ∧
    (accountLeafNeighbouringLeafUpdate proofValuesMidProof).key_rlc =
      (ProofValues.new : ProofValues ℚ).key_rlc ∧
    (accountLeafNeighbouringLeafUpdate proofValuesMidProof).key_rlc_mult =
      (ProofValues.new : ProofValues ℚ).key_rlc_mult ∧
    (accountLeafNeighbouringLeafUpdate proofValuesMidProof).key_rlc_sel =
      (ProofValues.new : ProofValues ℚ).key_rlc_sel ∧
    (accountLeafNeighbouringLeafUpdate proofValuesMidProof).nibbles_num =
      (ProofValues.new : ProofValues ℚ).nibbles_num := by
  refine ⟨rfl, ?_, rfl, rfl, rfl, rfl⟩
  norm_num [proofValuesMidProof, ProofValues.new, ProofValues.zeroed,
    accountLeafNeighbouringLeafUpdate]

/--
Claim C8 (amended): the full accumulator state is re-created as
`ProofValues::new` exactly when the classifier sees `not_first_level` go
from 1 to 0 (`offset > 0`); the re-created state has key multiplier 1, the
c16 convention selected and all RLCs zero; and the one other reset in the
loop, at the `AccountLeafNeighbouringLeaf` row, restores only the key
accumulator sub-state to its initial values while carrying every other
field forward unchanged.
-/
theorem claim_C8 (offset not_first_level_prev not_first_level_cur : ℕ)
    (pv : ProofValues F) :
    (shouldResetProofValues offset not_first_level_prev not_first_level_cur = true ↔
      offset > 0 ∧ not_first_level_prev = 1 ∧ not_first_level_cur = 0) ∧
    ((ProofValues.new : ProofValues F).key_rlc_mult = 1 ∧
      (ProofValues.new : ProofValues F).key_rlc_sel = true ∧
      (ProofValues.new : ProofValues F).key_rlc = 0 ∧
      (ProofValues.new : ProofValues F).acc_s = 0 ∧
      (ProofValues.new : ProofValues F).acc_c = 0) ∧
    ((accountLeafNeighbouringLeafUpdate pv).key_rlc = 0 ∧
      (accountLeafNeighbouringLeafUpdate pv).key_rlc_mult = 1 ∧
      (accountLeafNeighbouringLeafUpdate pv).key_rlc_prev = 0 ∧
      (accountLeafNeighbouringLeafUpdate pv).key_rlc_mult_prev = 1 ∧
      (accountLeafNeighbouringLeafUpdate pv).key_rlc_sel = true ∧
      (accountLeafNeighbouringLeafUpdate pv).nibbles_num = 0) ∧
    ((accountLeafNeighbouringLeafUpdate pv).modified_node = pv.modified_node ∧
      (accountLeafNeighbouringLeafUpdate pv).acc_s = pv.acc_s ∧
      (accountLeafNeighbouringLeafUpdate pv).acc_mult_s = pv.acc_mult_s ∧
      (accountLeafNeighbouringLeafUpdate pv).acc_c = pv.acc_c ∧
      (accountLeafNeighbouringLeafUpdate pv).acc_mult_c = pv.acc_mult_c ∧
      (accountLeafNeighbouringLeafUpdate pv).acc_account_s = pv.acc_account_s ∧
      (accountLeafNeighbouringLeafUpdate pv).acc_account_c = pv.acc_account_c ∧
      (accountLeafNeighbouringLeafUpdate pv).acc_nonce_balance_s = pv.acc_nonce_balance_s ∧
      (accountLeafNeighbouringLeafUpdate pv).acc_nonce_balance_c = pv.acc_nonce_balance_c ∧
      (accountLeafNeighbouringLeafUpdate pv).extension_node_rlc = pv.extension_node_rlc ∧
      (accountLeafNeighbouringLeafUpdate pv).mult_diff = pv.mult_diff ∧
      (accountLeafNeighbouringLeafUpdate pv).is_branch_s_placeholder =
        pv.is_branch_s_placeholder ∧
      (accountLeafNeighbouringLeafUpdate pv).is_branch_c_placeholder =
        pv.is_branch_c_placeholder ∧
      (accountLeafNeighbouringLeafUpdate pv).drifted_pos = pv.drifted_pos ∧
      (accountLeafNeighbouringLeafUpdate pv).rlp_len_rem_s = pv.rlp_len_rem_s ∧
      (accountLeafNeighbouringLeafUpdate pv).rlp_len_rem_c = pv.rlp_len_rem_c ∧
      (accountLeafNeighbouringLeafUpdate pv).is_extension_node = pv.is_extension_node ∧
      (accountLeafNeighbouringLeafUpdate pv).rlc1 = pv.rlc1 ∧
      (accountLeafNeighbouringLeafUpdate pv).rlc2 = pv.rlc2 ∧
      (accountLeafNeighbouringLeafUpdate pv).nonce_value_s = pv.nonce_value_s ∧
      (accountLeafNeighbouringLeafUpdate pv).balance_value_s = pv.balance_value_s ∧
      (accountLeafNeighbouringLeafUpdate pv).before_account_leaf =
        pv.before_account_leaf) := by
  refine ⟨?_, ⟨rfl, rfl, rfl, rfl, rfl⟩,
    ⟨rfl, rfl, rfl, rfl, rfl, rfl⟩,
    rfl, rfl, rfl, rfl, rfl, rfl, rfl, rfl, rfl, rfl, rfl, rfl, rfl, rfl, rfl,
    rfl, rfl, rfl, rfl, rfl, rfl, rfl⟩
  unfold shouldResetProofValues
  rw [Bool.and_eq_true, Bool.and_eq_true, decide_eq_true_eq, beq_iff_eq, beq_iff_eq]
  tauto

end ProofValuesLifecycle

section TableLoading

variable {F : Type} [Field F]

/-- `HASH_WIDTH` (src/mpt/src/param.rs:3). -/
def HASH_WIDTH : ℕ := 32

/-- `FixedTableTag` (src/mpt/src/mpt.rs:110-116). -/
inductive FixedTableTag where
  | RMult
  | Range16
  | Range256
  | RangeKeyLen256
deriving DecidableEq, Repr

/--
Embedding of `MPTConfig::load_fixed_table` (src/mpt/src/mpt.rs:1266-1357)
as the list of rows it assigns, in assignment order: the `RMult` loop runs
`ind` over `0..(2 * HASH_WIDTH + 1)` writing `(RMult, ind, r^ind)` (the
running `mult` starts at 1 and is multiplied by `acc_r` after each row);
the `Range256` loop writes `(Range256, ind)` for `ind` in `0..256` with no
output column; the `RangeKeyLen256` loop is commented out in the source;
the `Range16` loop writes `(Range16, ind)` for `ind` in `0..16`.
-/
def load_fixed_table (r : F) : List (FixedTableTag × ℕ × Option F) :=
  ((List.range (2 * HASH_WIDTH + 1)).map
    (fun ind => (FixedTableTag.RMult, ind, some (r ^ ind)))) ++
  ((List.range 256).map (fun ind => (FixedTableTag.Range256, ind, none))) ++
  ((List.range 16).map (fun ind => (FixedTableTag.Range16, ind, none)))

/--
Claim C9 as stated is false on the code: the loaded fixed table contains a
multiplier-power row for length 64 (so the multiplier-power rows are not
"each length in [0, 32]": `2 * HASH_WIDTH + 1 = 65` rows are loaded), and
it contains no key-length-range (`RangeKeyLen256`) row at all — that
loading loop is commented out.
-/
theorem claim_C9_counterexample :
    (FixedTableTag.RMult, 64, some ((1 : ℚ) ^ 64)) ∈ load_fixed_table (1 : ℚ) ∧
    (load_fixed_table (1 : ℚ)).filter
      (fun row => row.1 == FixedTableTag.RangeKeyLen256) = [] := by
  constructor
  · simp only [load_fixed_table, List.mem_append, List.mem_map, List.mem_range]
    exact Or.inl (Or.inl ⟨64, by norm_num [HASH_WIDTH], rfl⟩)
  · simp [load_fixed_table, HASH_WIDTH, List.filter_append, List.filter_map]

/--
Claim C9 (amended): after loading, the fixed table contains precisely a
byte-range row for every value in [0, 256), a nibble-range row for every
value in [0, 16), and a multiplier-power row pairing each length in
[0, 2 * HASH_WIDTH] = [0, 64] with the corresponding power of the folding
randomness; no key-length-range rows are loaded (that loop is commented
out in the source).
-/
theorem claim_C9 (r : F) (tag : FixedTableTag) (i : ℕ) (v : Option F) :
    (tag, i, v) ∈ load_fixed_table r ↔
      (tag = FixedTableTag.RMult ∧ i < 2 * HASH_WIDTH + 1 ∧ v = some (r ^ i)) ∨
      (tag = FixedTableTag.Range256 ∧ i < 256 ∧ v = none) ∨
      (tag = FixedTableTag.Range16 ∧ i < 16 ∧ v = none) := by
  simp only [load_fixed_table, List.mem_append, List.mem_map, List.mem_range,
    Prod.mk.injEq]
  constructor
  · rintro ((⟨a, ha, h1, h2, h3⟩ | ⟨a, ha, h1, h2, h3⟩) | ⟨a, ha, h1, h2, h3⟩)
    · subst h2; exact Or.inl ⟨h1.symm, ha, h3.symm⟩
    · subst h2; exact Or.inr (Or.inl ⟨h1.symm, ha, h3.symm⟩)
    · subst h2; exact Or.inr (Or.inr ⟨h1.symm, ha, h3.symm⟩)
  · rintro (⟨h1, hi, hv⟩ | ⟨h1, hi, hv⟩ | ⟨h1, hi, hv⟩)
    · exact Or.inl (Or.inl ⟨i, hi, h1.symm, rfl, hv.symm⟩)
    · exact Or.inl (Or.inr ⟨i, hi, h1.symm, rfl, hv.symm⟩)
    · exact Or.inr ⟨i, hi, h1.symm, rfl, hv.symm⟩

/--
Embedding of `MPTConfig::load` (src/mpt/src/mpt.rs:1206-1215).  The source
calls `self.load_keccak_table(..).ok()` and `self.load_fixed_table(..).ok()`
— `.ok()` converts each `Result` into an `Option`, discarding any error —
and then returns `Ok(())` unconditionally.  The two sub-results are taken
as inputs here.
-/
def MPTConfig.load {E : Type} (keccak_table_result fixed_table_result : Except E Unit) :
    Except E Unit :=
  let _ : Option Unit := keccak_table_result.toOption
  let _ : Option Unit := fixed_table_result.toOption
  Except.ok ()

/--
Claim C10 fails on the code: when loading the keccak table or the fixed
table returns an error, `MPTConfig::load` does not propagate it — the
errors are discarded by `.ok()` and `load` reports success (`Ok(())`)
unconditionally.
-/
theorem claim_C10 :
    MPTConfig.load (Except.error 0) (Except.ok ()) = (Except.ok () : Except ℕ Unit) ∧
    MPTConfig.load (Except.ok ()) (Except.error 1) = (Except.ok () : Except ℕ Unit) ∧
    MPTConfig.load (Except.error 0) (Except.error 1) =
      (Except.ok () : Except ℕ Unit) :=
  ⟨rfl, rfl, rfl⟩

end TableLoading

end MptVerify
